import Mathlib

/-!
Verification of `estimations.py` (EQLS causal-estimation driver).

The script is a linear orchestration over an external causal-inference
library (DoWhy) and a preprocessing helper (`structure_data`).  We embed it
shallowly: every external call is an oracle field of an `Env` record that
may succeed or raise, and every embedded function returns its Python result
together with a trace of observable events (external calls made, with their
arguments, and lines printed).  Python exceptions are split into ordinary
`Exception` instances and `BaseException`s that are not `Exception`
(`KeyboardInterrupt`, `SystemExit`), because `except Exception` catches only
the former.
-/

namespace Estimations

/-- A raised Python exception. `exc` is an instance of `Exception`;
`baseExc` is a `BaseException` that is not an `Exception`
(e.g. `KeyboardInterrupt`, `SystemExit`). -/
inductive PyError : Type where
  | exc : String → PyError
  | baseExc : String → PyError
deriving DecidableEq, Repr

/-- A Python float as used by the script: either the not-a-number sentinel
`float("nan")` or an ordinary numeric value, modelled as a rational. -/
inductive PyFloat : Type where
  | nan : PyFloat
  | val : Rat → PyFloat
deriving DecidableEq, Repr

/-- The keyword options passed to `preprocess_data` in `load_data`
(src/estimations.py lines 39-45). -/
structure PreprocessConfig : Type where
  na_threshold : Rat
  impute_strategy : String
  treatment_dichotomize_value : String
  treatment_column : String
deriving DecidableEq, Repr

/-- Observable events of a run: each external call, with the arguments the
script passes to it, and each line printed to stdout. -/
inductive Event : Type where
  | chooseColumnsCall : Event
  | preprocessCall : PreprocessConfig → Event
  | pickleLoadCall : Event
  | causalModelCall : String → Event
  | identifyCall : Event
  | estimateCall : String → Event
  | floatConvCall : String → Event
  | printLine : String → Event
deriving DecidableEq, Repr

/-- The method to which an event belongs: `estimate_effect` calls and the
`float(est.value)` conversion are tagged with the method name; every other
event belongs to no method. -/
def Event.methodTag : Event → Option String
  | .estimateCall m => some m
  | .floatConvCall m => some m
  | _ => none

/-- The treatment variable name, constant `TREATMENT` of the script. -/
def TREATMENT : String := "Y11_Q57"

/-- The outcome variable name, constant `OUTCOME` of the script. -/
def OUTCOME : String := "Y11_MWIndex"

/-- The fixed method list of `estimate_effects` (lines 64-69). -/
def methods : List String :=
  [ "backdoor.propensity_score_matching",
    "backdoor.propensity_score_weighting",
    "backdoor.propensity_score_stratification",
    "backdoor.linear_regression" ]

/-- The external collaborators of the script, as oracles.  Type parameters:
`DF` pandas data frames, `G` networkx graphs, `Mo` DoWhy causal models,
`Es` identified estimands, `Ev` estimate objects (carrying `.value`).
Each fallible call returns `Except PyError`. -/
structure Env (DF G Mo Es Ev : Type) : Type where
  choose_columns : Except PyError DF
  preprocess_data : DF → PreprocessConfig → Except PyError DF
  pickle_load : Except PyError G
  to_pydot_string : G → String
  causal_model : DF → String → String → String → Except PyError Mo
  identify_effect : Mo → Except PyError Es
  estimate_effect : Mo → Es → String → Except PyError Ev
  float_value : Ev → Except PyError PyFloat

variable {DF G Mo Es Ev : Type}

/-- The exact configuration record `load_data` passes to `preprocess_data`. -/
def loadDataCfg : PreprocessConfig :=
  { na_threshold := (1 : Rat) / 2,
    impute_strategy := "drop",
    treatment_dichotomize_value := "median",
    treatment_column := TREATMENT }

/-- Embedding of `load_data` (lines 36-46): `choose_columns()` then
`preprocess_data(df, na_threshold=0.5, impute_strategy="drop",
treatment_dichotomize_value="median", treatment_column=TREATMENT)`. -/
def load_data (env : Env DF G Mo Es Ev) : Except PyError DF × List Event :=
  match env.choose_columns with
  | .error e => (.error e, [Event.chooseColumnsCall])
  | .ok df =>
    match env.preprocess_data df loadDataCfg with
    | .error e =>
      (.error e, [Event.chooseColumnsCall, Event.preprocessCall loadDataCfg])
    | .ok df2 =>
      (.ok df2, [Event.chooseColumnsCall, Event.preprocessCall loadDataCfg])

/-- Embedding of `load_graph` (lines 49-52): unpickle the graph file. -/
def load_graph (env : Env DF G Mo Es Ev) : Except PyError G × List Event :=
  (env.pickle_load, [Event.pickleLoadCall])

/-- The body of the `try` block for one method (lines 73-74):
`est = model.estimate_effect(estimand, method_name=m)` followed by
`float(est.value)`. -/
def run_method (env : Env DF G Mo Es Ev) (mo : Mo) (es : Es) (m : String) :
    Except PyError PyFloat × List Event :=
  match env.estimate_effect mo es m with
  | .error e => (.error e, [Event.estimateCall m])
  | .ok ev =>
    match env.float_value ev with
    | .error e => (.error e, [Event.estimateCall m, Event.floatConvCall m])
    | .ok v => (.ok v, [Event.estimateCall m, Event.floatConvCall m])

/-- The `try/except Exception` boundary around one method (lines 72-76):
an `Exception` is converted to the `float("nan")` sentinel; a
`BaseException` that is not an `Exception` is not caught. -/
def try_method (env : Env DF G Mo Es Ev) (mo : Mo) (es : Es) (m : String) :
    Except PyError PyFloat × List Event :=
  match run_method env mo es m with
  | (.ok v, tr) => (.ok v, tr)
  | (.error (.exc _), tr) => (.ok PyFloat.nan, tr)
  | (.error (.baseExc s), tr) => (.error (.baseExc s), tr)

/-- The `for m in methods` loop (lines 71-76), building the insertion-ordered
`results` dict, modelled as an association list. -/
def estimate_loop (env : Env DF G Mo Es Ev) (mo : Mo) (es : Es) :
    List String → Except PyError (List (String × PyFloat)) × List Event
  | [] => (.ok [], [])
  | m :: ms =>
    match try_method env mo es m with
    | (.error e, tr) => (.error e, tr)
    | (.ok v, tr) =>
      match estimate_loop env mo es ms with
      | (.error e, tr2) => (.error e, tr ++ tr2)
      | (.ok rest, tr2) => (.ok ((m, v) :: rest), tr ++ tr2)

/-- Embedding of `estimate_effects` (lines 55-77): build the `CausalModel`
from the data and the pydot-serialized graph, identify the effect once, then
run the fixed method list. -/
def estimate_effects (env : Env DF G Mo Es Ev) (df : DF) (g : G) :
    Except PyError (List (String × PyFloat)) × List Event :=
  let gstr := env.to_pydot_string g
  match env.causal_model df TREATMENT OUTCOME gstr with
  | .error e => (.error e, [Event.causalModelCall gstr])
  | .ok mo =>
    match env.identify_effect mo with
    | .error e => (.error e, [Event.causalModelCall gstr, Event.identifyCall])
    | .ok es =>
      match estimate_loop env mo es methods with
      | (r, tr) =>
        (r, Event.causalModelCall gstr :: Event.identifyCall :: tr)

/-- Left-align a string in a field of width `w`, as Python format spec
`<w`: pad on the right with spaces, leave the string unchanged if it is
already at least `w` characters. -/
def padRight (s : String) (w : Nat) : String :=
  s ++ String.mk (List.replicate (w - s.length) ' ')

/-- The decimal digit character for `n % 10`. -/
def digitChar10 (n : Nat) : Char := Char.ofNat (48 + n % 10)

/-- The four decimal digits of `n % 10000`, most significant first. -/
def pad4 (n : Nat) : String :=
  String.mk [digitChar10 (n / 1000), digitChar10 (n / 100),
             digitChar10 (n / 10), digitChar10 n]

/-- Fixed-point formatting of a rational with four digits after the decimal
point, rounding to the nearest multiple of 1/10000, as Python `.4f`. -/
def format4 (q : Rat) : String :=
  let scaled : Int := (q * 10000 + 1 / 2).floor
  let sign : String := if scaled < 0 then "-" else ""
  sign ++ toString (scaled.natAbs / 10000) ++ "." ++ pad4 scaled.natAbs

/-- Python `format(val, ".4f")` on the script's float values:
`float("nan")` formats as `"nan"`, a numeric value as fixed-point with four
decimal places. -/
def pyFormat4 : PyFloat → String
  | .nan => "nan"
  | .val q => format4 q

/-- The report line for one method (line 86):
`f"  {name:<40} {val:.4f}"`. -/
def report_line (name : String) (v : PyFloat) : String :=
  "  " ++ padRight name 40 ++ " " ++ pyFormat4 v

/-- The header line printed before the per-method lines (line 84). -/
def headerLine : String := "Estimation results (ATE):"

/-- Embedding of `main` (lines 80-86): load data, load graph, estimate,
print the header and one line per method.  An uncaught exception anywhere
propagates out as the `.error` result. -/
def main (env : Env DF G Mo Es Ev) : Except PyError Unit × List Event :=
  match load_data env with
  | (.error e, tr1) => (.error e, tr1)
  | (.ok df, tr1) =>
    match load_graph env with
    | (.error e, tr2) => (.error e, tr1 ++ tr2)
    | (.ok g, tr2) =>
      match estimate_effects env df g with
      | (.error e, tr3) => (.error e, tr1 ++ tr2 ++ tr3)
      | (.ok results, tr3) =>
        (.ok (), tr1 ++ tr2 ++ tr3 ++
          (Event.printLine headerLine ::
            results.map (fun p => Event.printLine (report_line p.1 p.2))))

/-- The process exit code of `python estimations.py`: 0 when `main` returns
normally, nonzero (modelled as 1) when an exception escapes `main`. -/
def exit_code (env : Env DF G Mo Es Ev) : Nat :=
  match (main env).1 with
  | .ok _ => 0
  | .error _ => 1

/-- The method names of the `estimate_effect` calls recorded in a trace,
in order. -/
def estimateCalls (tr : List Event) : List String :=
  tr.filterMap fun e =>
    match e with
    | .estimateCall m => some m
    | _ => none

/-- The lines printed in a trace, in order. -/
def printedLines (tr : List Event) : List String :=
  tr.filterMap fun e =>
    match e with
    | .printLine s => some s
    | _ => none

/-- How many `causal_model` constructor calls a trace records. -/
def countModelCalls (tr : List Event) : Nat :=
  (tr.filter fun e =>
    match e with
    | .causalModelCall _ => true
    | _ => false).length

/-- How many `pickle.load` calls a trace records. -/
def countPickleLoads (tr : List Event) : Nat :=
  (tr.filter fun e =>
    match e with
    | .pickleLoadCall => true
    | _ => false).length

/-- How many `identify_effect` calls a trace records. -/
def countIdentifyCalls (tr : List Event) : Nat :=
  (tr.filter fun e =>
    match e with
    | .identifyCall => true
    | _ => false).length

/-- The value the loop records for a method when its failure (if any) is an
ordinary `Exception`: the estimated float on success, the nan sentinel on
any failure, whatever its cause. -/
def method_result (env : Env DF G Mo Es Ev) (mo : Mo) (es : Es)
    (m : String) : PyFloat :=
  match (run_method env mo es m).1 with
  | .ok v => v
  | .error _ => PyFloat.nan

/-- The run-time outcome of one method's `try` body. -/
def methodOutcome (env : Env DF G Mo Es Ev) (mo : Mo) (es : Es)
    (m : String) : Except PyError PyFloat :=
  (run_method env mo es m).1

/-- Environments over trivial carrier types, for concrete evaluation. -/
abbrev Env0 : Type := Env Unit Unit Unit Unit Unit

/-- A run in which every external call succeeds and every estimate has the
value 3/2. -/
def envAllOK : Env0 where
  choose_columns := .ok ()
  preprocess_data := fun _ _ => .ok ()
  pickle_load := .ok ()
  to_pydot_string := fun _ => "digraph G"
  causal_model := fun _ _ _ _ => .ok ()
  identify_effect := fun _ => .ok ()
  estimate_effect := fun _ _ _ => .ok ()
  float_value := fun _ => .ok (PyFloat.val (3 / 2))

/-- A run in which every estimation method raises an ordinary Exception. -/
def envAllFail : Env0 :=
  { envAllOK with
    estimate_effect := fun _ _ _ => .error (.exc "did not converge") }

/-- A run in which propensity-score weighting raises an ordinary Exception
and the other methods succeed. -/
def envOneFails : Env0 :=
  { envAllOK with
    estimate_effect := fun _ _ m =>
      if m = "backdoor.propensity_score_weighting" then
        .error (.exc "LinAlgError")
      else .ok () }

/-- A run in which propensity-score weighting raises `KeyboardInterrupt`,
a `BaseException` that is not an `Exception`. -/
def envBaseFails : Env0 :=
  { envAllOK with
    estimate_effect := fun _ _ m =>
      if m = "backdoor.propensity_score_weighting" then
        .error (.baseExc "KeyboardInterrupt")
      else .ok () }

/-- A run in which data loading raises `FileNotFoundError`. -/
def envLoadFails : Env0 :=
  { envAllOK with choose_columns := .error (.exc "FileNotFoundError") }

/-- A run in which graph unpickling raises `UnpicklingError`. -/
def envGraphFails : Env0 :=
  { envAllOK with pickle_load := .error (.exc "UnpicklingError") }

/-- A run in which `CausalModel` construction raises `ValueError`. -/
def envModelFails : Env0 :=
  { envAllOK with causal_model := fun _ _ _ _ => .error (.exc "ValueError") }

/-- A run in which `identify_effect` raises `ValueError`. -/
def envIdentFails : Env0 :=
  { envAllOK with identify_effect := fun _ => .error (.exc "ValueError") }

lemma run_method_trace (env : Env DF G Mo Es Ev) (mo : Mo) (es : Es)
    (m : String) :
    (run_method env mo es m).2 = [Event.estimateCall m] ∨
      (run_method env mo es m).2 =
        [Event.estimateCall m, Event.floatConvCall m] := by
  unfold run_method
  cases h1 : env.estimate_effect mo es m with
  | error e => simp
  | ok ev =>
    cases h2 : env.float_value ev with
    | error e => simp [h2]
    | ok v => simp [h2]

lemma try_method_trace (env : Env DF G Mo Es Ev) (mo : Mo) (es : Es)
    (m : String) :
    (try_method env mo es m).2 = (run_method env mo es m).2 := by
  unfold try_method
  cases h : run_method env mo es m with
  | mk r tr =>
    cases r with
    | ok v => simp
    | error e => cases e <;> simp

lemma try_method_fst (env : Env DF G Mo Es Ev) (mo : Mo) (es : Es)
    (m : String) :
    (try_method env mo es m).1 =
      match (run_method env mo es m).1 with
      | .ok v => .ok v
      | .error (.exc _) => .ok PyFloat.nan
      | .error (.baseExc s) => .error (.baseExc s) := by
  unfold try_method
  cases h : run_method env mo es m with
  | mk r tr =>
    cases r with
    | ok v => simp
    | error e => cases e <;> simp

lemma load_data_trace (env : Env DF G Mo Es Ev) :
    (load_data env).2 = [Event.chooseColumnsCall] ∨
      (load_data env).2 =
        [Event.chooseColumnsCall, Event.preprocessCall loadDataCfg] := by
  unfold load_data
  cases h1 : env.choose_columns with
  | error e => simp
  | ok df =>
    cases h2 : env.preprocess_data df loadDataCfg with
    | error e => simp [h2]
    | ok df2 => simp [h2]

lemma run_method_events (env : Env DF G Mo Es Ev) (mo : Mo) (es : Es)
    (m : String) :
    ∀ e ∈ (run_method env mo es m).2,
      (∃ m', e = Event.estimateCall m') ∨ ∃ m', e = Event.floatConvCall m' := by
  intro e he
  rcases run_method_trace env mo es m with h | h <;> rw [h] at he <;>
    simp at he
  · exact Or.inl ⟨m, he⟩
  · rcases he with rfl | rfl
    · exact Or.inl ⟨m, rfl⟩
    · exact Or.inr ⟨m, rfl⟩

lemma estimateCalls_append (tr1 tr2 : List Event) :
    estimateCalls (tr1 ++ tr2) = estimateCalls tr1 ++ estimateCalls tr2 :=
  List.filterMap_append _ _ _

lemma estimateCalls_run_method (env : Env DF G Mo Es Ev) (mo : Mo) (es : Es)
    (m : String) :
    estimateCalls (run_method env mo es m).2 = [m] := by
  rcases run_method_trace env mo es m with h | h <;> rw [h] <;> rfl

lemma estimateCalls_flatMap (env : Env DF G Mo Es Ev) (mo : Mo) (es : Es)
    (ms : List String) :
    estimateCalls (ms.flatMap fun m => (run_method env mo es m).2) = ms := by
  induction ms with
  | nil => rfl
  | cons m ms ih =>
    rw [List.flatMap_cons, estimateCalls_append, estimateCalls_run_method, ih]
    rfl

lemma method_result_of_error (env : Env DF G Mo Es Ev) (mo : Mo) (es : Es)
    (m : String) (e : PyError)
    (h : methodOutcome env mo es m = Except.error e) :
    method_result env mo es m = PyFloat.nan := by
  unfold method_result
  unfold methodOutcome at h
  rw [h]

lemma try_fst_ok_of_no_base (env : Env DF G Mo Es Ev) (mo : Mo) (es : Es)
    (m : String)
    (h : ∀ s, methodOutcome env mo es m ≠ Except.error (PyError.baseExc s)) :
    (try_method env mo es m).1 = Except.ok (method_result env mo es m) := by
  rw [try_method_fst]
  unfold method_result
  unfold methodOutcome at h
  cases hr : (run_method env mo es m).1 with
  | ok v => simp
  | error e =>
    cases e with
    | exc s => simp
    | baseExc s => exact absurd hr (h s)

lemma estimate_loop_ok_char (env : Env DF G Mo Es Ev) (mo : Mo) (es : Es) :
    ∀ (ms : List String) (rs : List (String × PyFloat)),
      (estimate_loop env mo es ms).1 = Except.ok rs →
      rs.map Prod.fst = ms ∧
        (estimate_loop env mo es ms).2 =
          ms.flatMap fun m => (run_method env mo es m).2 := by
  intro ms
  induction ms with
  | nil =>
    intro rs h
    simp only [estimate_loop] at h ⊢
    cases h
    simp
  | cons m ms ih =>
    intro rs h
    cases htm : try_method env mo es m with
    | mk r tr =>
      cases hl : estimate_loop env mo es ms with
      | mk r2 tr2 =>
        cases r with
        | error e =>
          rw [show estimate_loop env mo es (m :: ms) = (Except.error e, tr) by
            simp [estimate_loop, htm]] at h
          exact absurd h (by simp)
        | ok v =>
          cases r2 with
          | error e2 =>
            rw [show estimate_loop env mo es (m :: ms) =
                (Except.error e2, tr ++ tr2) by
              simp [estimate_loop, htm, hl]] at h
            exact absurd h (by simp)
          | ok rest =>
            have hstep : estimate_loop env mo es (m :: ms) =
                (Except.ok ((m, v) :: rest), tr ++ tr2) := by
              simp [estimate_loop, htm, hl]
            rw [hstep] at h
            simp only [Except.ok.injEq] at h
            subst h
            obtain ⟨hkeys, htr⟩ := ih rest (by rw [hl])
            constructor
            · simp [hkeys]
            · rw [hstep, List.flatMap_cons]
              have htrm : tr = (run_method env mo es m).2 := by
                have h3 := try_method_trace env mo es m
                rw [htm] at h3
                simpa using h3
              have htr2 : tr2 = ms.flatMap fun m => (run_method env mo es m).2 := by
                rw [hl] at htr
                simpa using htr
              simp [htrm, htr2]

lemma estimate_loop_ok_of_no_base (env : Env DF G Mo Es Ev) (mo : Mo)
    (es : Es) :
    ∀ ms : List String,
      (∀ m ∈ ms, ∀ s,
        methodOutcome env mo es m ≠ Except.error (PyError.baseExc s)) →
      (estimate_loop env mo es ms).1 =
        Except.ok (ms.map fun m => (m, method_result env mo es m)) := by
  intro ms
  induction ms with
  | nil => intro _; simp [estimate_loop]
  | cons m ms ih =>
    intro h
    have h1 : (try_method env mo es m).1 =
        Except.ok (method_result env mo es m) :=
      try_fst_ok_of_no_base env mo es m (fun s => h m (by simp) s)
    have h2 := ih (fun m' hm' s => h m' (by simp [hm']) s)
    cases htm : try_method env mo es m with
    | mk r tr =>
      cases hl : estimate_loop env mo es ms with
      | mk r2 tr2 =>
        rw [htm] at h1
        rw [hl] at h2
        simp only at h1 h2
        subst h1
        subst h2
        simp [estimate_loop, htm, hl]

lemma estimate_loop_baseExc (env : Env DF G Mo Es Ev) (mo : Mo) (es : Es) :
    ∀ (ms1 : List String) (m : String) (ms2 : List String) (s : String),
      (∀ m' ∈ ms1, ∀ t,
        methodOutcome env mo es m' ≠ Except.error (PyError.baseExc t)) →
      methodOutcome env mo es m = Except.error (PyError.baseExc s) →
      estimate_loop env mo es (ms1 ++ m :: ms2) =
        (Except.error (PyError.baseExc s),
          (ms1.flatMap fun m' => (run_method env mo es m').2) ++
            (run_method env mo es m).2) := by
  intro ms1
  induction ms1 with
  | nil =>
    intro m ms2 s _ h2
    have h1 : (try_method env mo es m).1 =
        Except.error (PyError.baseExc s) := by
      rw [try_method_fst]
      unfold methodOutcome at h2
      rw [h2]
    cases htm : try_method env mo es m with
    | mk r tr =>
      rw [htm] at h1
      simp only at h1
      subst h1
      have htrm : tr = (run_method env mo es m).2 := by
        have h3 := try_method_trace env mo es m
        rw [htm] at h3
        simpa using h3
      simp [estimate_loop, htm, htrm]
  | cons m' ms1 ih =>
    intro m ms2 s h1 h2
    have hok : (try_method env mo es m').1 =
        Except.ok (method_result env mo es m') :=
      try_fst_ok_of_no_base env mo es m' (fun t => h1 m' (by simp) t)
    have hrec := ih m ms2 s (fun x hx t => h1 x (by simp [hx]) t) h2
    cases htm : try_method env mo es m' with
    | mk r tr =>
      rw [htm] at hok
      simp only at hok
      subst hok
      have htrm : tr = (run_method env mo es m').2 := by
        have h3 := try_method_trace env mo es m'
        rw [htm] at h3
        simpa using h3
      simp [estimate_loop, htm, hrec, htrm, List.flatMap_cons]

lemma estimate_loop_events (env : Env DF G Mo Es Ev) (mo : Mo) (es : Es) :
    ∀ ms, ∀ e ∈ (estimate_loop env mo es ms).2,
      (∃ m, e = Event.estimateCall m) ∨ ∃ m, e = Event.floatConvCall m := by
  intro ms
  induction ms with
  | nil => intro e he; simp [estimate_loop] at he
  | cons m ms ih =>
    intro e he
    cases htm : try_method env mo es m with
    | mk r tr =>
      have htrm : tr = (run_method env mo es m).2 := by
        have h3 := try_method_trace env mo es m
        rw [htm] at h3
        simpa using h3
      cases hl : estimate_loop env mo es ms with
      | mk r2 tr2 =>
        cases r with
        | error e2 =>
          rw [show estimate_loop env mo es (m :: ms) = (Except.error e2, tr) by
            simp [estimate_loop, htm]] at he
          simp only at he
          exact run_method_events env mo es m e (htrm ▸ he)
        | ok v =>
          have hstep : (estimate_loop env mo es (m :: ms)).2 = tr ++ tr2 := by
            cases r2 <;> simp [estimate_loop, htm, hl]
          rw [hstep] at he
          rcases List.mem_append.mp he with h | h
          · exact run_method_events env mo es m e (htrm ▸ h)
          · exact ih e (hl ▸ h)

lemma printedLines_of_events {tr : List Event}
    (h : ∀ e ∈ tr,
      (∃ m, e = Event.estimateCall m) ∨ ∃ m, e = Event.floatConvCall m) :
    printedLines tr = [] := by
  unfold printedLines
  rw [List.filterMap_eq_nil_iff]
  intro e he
  rcases h e he with ⟨m, rfl⟩ | ⟨m, rfl⟩ <;> rfl

lemma countModelCalls_of_events {tr : List Event}
    (h : ∀ e ∈ tr,
      (∃ m, e = Event.estimateCall m) ∨ ∃ m, e = Event.floatConvCall m) :
    countModelCalls tr = 0 := by
  unfold countModelCalls
  rw [List.length_eq_zero, List.filter_eq_nil_iff]
  intro e he
  rcases h e he with ⟨m, rfl⟩ | ⟨m, rfl⟩ <;> simp

lemma countIdentifyCalls_of_events {tr : List Event}
    (h : ∀ e ∈ tr,
      (∃ m, e = Event.estimateCall m) ∨ ∃ m, e = Event.floatConvCall m) :
    countIdentifyCalls tr = 0 := by
  unfold countIdentifyCalls
  rw [List.length_eq_zero, List.filter_eq_nil_iff]
  intro e he
  rcases h e he with ⟨m, rfl⟩ | ⟨m, rfl⟩ <;> simp

lemma countPickleLoads_of_events {tr : List Event}
    (h : ∀ e ∈ tr,
      (∃ m, e = Event.estimateCall m) ∨ ∃ m, e = Event.floatConvCall m) :
    countPickleLoads tr = 0 := by
  unfold countPickleLoads
  rw [List.length_eq_zero, List.filter_eq_nil_iff]
  intro e he
  rcases h e he with ⟨m, rfl⟩ | ⟨m, rfl⟩ <;> simp

lemma estimate_effects_trace_cases (env : Env DF G Mo Es Ev) (df : DF)
    (g : G) :
    (estimate_effects env df g).2 =
        [Event.causalModelCall (env.to_pydot_string g)] ∨
      (estimate_effects env df g).2 =
        [Event.causalModelCall (env.to_pydot_string g), Event.identifyCall] ∨
      ∃ mo es,
        env.causal_model df TREATMENT OUTCOME (env.to_pydot_string g) =
            Except.ok mo ∧
          env.identify_effect mo = Except.ok es ∧
          (estimate_effects env df g).2 =
            Event.causalModelCall (env.to_pydot_string g) ::
              Event.identifyCall :: (estimate_loop env mo es methods).2 := by
  unfold estimate_effects
  cases h1 : env.causal_model df TREATMENT OUTCOME (env.to_pydot_string g) with
  | error e => exact Or.inl (by simp [h1])
  | ok mo =>
    cases h2 : env.identify_effect mo with
    | error e => exact Or.inr (Or.inl (by simp [h1, h2]))
    | ok es =>
      refine Or.inr (Or.inr ⟨mo, es, ?_, ?_, ?_⟩) <;> simp [h1, h2]

lemma countModelCalls_estimate_effects (env : Env DF G Mo Es Ev) (df : DF)
    (g : G) :
    countModelCalls (estimate_effects env df g).2 = 1 := by
  rcases estimate_effects_trace_cases env df g with h | h | ⟨mo, es, _, _, h⟩ <;>
    rw [h]
  · rfl
  · rfl
  · have h0 : countModelCalls (estimate_loop env mo es methods).2 = 0 :=
      countModelCalls_of_events fun e he =>
        estimate_loop_events env mo es methods e he
    simp only [countModelCalls, List.filter] at h0 ⊢
    simp [h0]

lemma countIdentifyCalls_estimate_effects (env : Env DF G Mo Es Ev) (df : DF)
    (g : G) :
    countIdentifyCalls (estimate_effects env df g).2 ≤ 1 := by
  rcases estimate_effects_trace_cases env df g with h | h | ⟨mo, es, _, _, h⟩ <;>
    rw [h]
  · simp [countIdentifyCalls]
  · simp [countIdentifyCalls]
  · have h0 : countIdentifyCalls (estimate_loop env mo es methods).2 = 0 :=
      countIdentifyCalls_of_events fun e he =>
        estimate_loop_events env mo es methods e he
    simp only [countIdentifyCalls, List.filter] at h0 ⊢
    simp [h0]

lemma countPickleLoads_estimate_effects (env : Env DF G Mo Es Ev) (df : DF)
    (g : G) :
    countPickleLoads (estimate_effects env df g).2 = 0 := by
  rcases estimate_effects_trace_cases env df g with h | h | ⟨mo, es, _, _, h⟩ <;>
    rw [h]
  · rfl
  · rfl
  · have h0 : countPickleLoads (estimate_loop env mo es methods).2 = 0 :=
      countPickleLoads_of_events fun e he =>
        estimate_loop_events env mo es methods e he
    simp only [countPickleLoads, List.filter] at h0 ⊢
    simp [h0]

lemma printedLines_estimate_effects (env : Env DF G Mo Es Ev) (df : DF)
    (g : G) :
    printedLines (estimate_effects env df g).2 = [] := by
  rcases estimate_effects_trace_cases env df g with h | h | ⟨mo, es, _, _, h⟩ <;>
    rw [h]
  · rfl
  · rfl
  · have h0 : printedLines (estimate_loop env mo es methods).2 = [] :=
      printedLines_of_events fun e he =>
        estimate_loop_events env mo es methods e he
    simp only [printedLines, List.filterMap] at h0 ⊢
    simp [h0]

lemma printedLines_append (tr1 tr2 : List Event) :
    printedLines (tr1 ++ tr2) = printedLines tr1 ++ printedLines tr2 :=
  List.filterMap_append _ _ _

lemma countPickleLoads_append (tr1 tr2 : List Event) :
    countPickleLoads (tr1 ++ tr2) =
      countPickleLoads tr1 + countPickleLoads tr2 := by
  simp [countPickleLoads, List.filter_append]

lemma printedLines_print_map {α : Type} (f : α → String) (l : List α) :
    printedLines (l.map fun x => Event.printLine (f x)) = l.map f := by
  induction l with
  | nil => rfl
  | cons x l ih =>
    unfold printedLines at ih ⊢
    rw [List.map_cons, List.filterMap_cons]
    simp only
    rw [ih, List.map_cons]

lemma countPickleLoads_print_map {α : Type} (f : α → String) (l : List α) :
    countPickleLoads (l.map fun x => Event.printLine (f x)) = 0 := by
  induction l with
  | nil => rfl
  | cons x l ih =>
    unfold countPickleLoads at ih ⊢
    rw [List.map_cons, List.filter_cons]
    simp [ih]

lemma char_ofNat_digit (k : Nat) (h : k < 10) :
    (Char.ofNat (48 + k)).isDigit = true := by
  interval_cases k <;> decide

lemma digitChar10_isDigit (n : Nat) : (digitChar10 n).isDigit = true :=
  char_ofNat_digit (n % 10) (Nat.mod_lt n (by norm_num))

lemma pad4_length (n : Nat) : (pad4 n).length = 4 := rfl

lemma pad4_digits (n : Nat) : ∀ c ∈ (pad4 n).data, c.isDigit = true := by
  intro c hc
  have hc2 : c ∈ [digitChar10 (n / 1000), digitChar10 (n / 100),
      digitChar10 (n / 10), digitChar10 n] := hc
  simp only [List.mem_cons, List.not_mem_nil, or_false] at hc2
  rcases hc2 with rfl | rfl | rfl | rfl <;> exact digitChar10_isDigit _

lemma format4_decomp (q : Rat) :
    ∃ a b : String, pyFormat4 (PyFloat.val q) = a ++ "." ++ b ∧
      b.length = 4 ∧ ∀ c ∈ b.data, c.isDigit = true := by
  refine ⟨(if ((q * 10000 + 1 / 2).floor : Int) < 0 then "-" else "") ++
      toString (((q * 10000 + 1 / 2).floor : Int).natAbs / 10000),
    pad4 ((q * 10000 + 1 / 2).floor.natAbs), ?_, pad4_length _, pad4_digits _⟩
  simp [pyFormat4, format4, String.append_assoc]

lemma estimate_effects_fst_ok (env : Env DF G Mo Es Ev) (df : DF) (g : G)
    (rs : List (String × PyFloat))
    (h : (estimate_effects env df g).1 = Except.ok rs) :
    ∃ mo es,
      env.causal_model df TREATMENT OUTCOME (env.to_pydot_string g) =
          Except.ok mo ∧
        env.identify_effect mo = Except.ok es ∧
        (estimate_loop env mo es methods).1 = Except.ok rs ∧
        (estimate_effects env df g).2 =
          Event.causalModelCall (env.to_pydot_string g) ::
            Event.identifyCall :: (estimate_loop env mo es methods).2 := by
  cases h1 : env.causal_model df TREATMENT OUTCOME (env.to_pydot_string g) with
  | error e =>
    have h0 : (estimate_effects env df g).1 = Except.error e := by
      simp [estimate_effects, h1]
    rw [h0] at h
    exact absurd h (by simp)
  | ok mo =>
    cases h2 : env.identify_effect mo with
    | error e =>
      have h0 : (estimate_effects env df g).1 = Except.error e := by
        simp [estimate_effects, h1, h2]
      rw [h0] at h
      exact absurd h (by simp)
    | ok es =>
      refine ⟨mo, es, ?_, ?_, ?_, ?_⟩
      · rfl
      · exact h2
      · have h0 : (estimate_effects env df g).1 =
            (estimate_loop env mo es methods).1 := by
          simp [estimate_effects, h1, h2]
        rw [h0] at h
        exact h
      · simp [estimate_effects, h1, h2]

/-- C1: for every method in the fixed method list, a failure of the method
(class `Exception`) records the nan sentinel as that method's result and
iteration continues: with no uncaught `BaseException`, the loop returns a
result for every method, an estimate-effect call is made for every method,
and every failure cause collapses to the same nan sentinel. -/
theorem c1_per_method_failure_isolated (env : Env DF G Mo Es Ev) (mo : Mo)
    (es : Es)
    (hno : ∀ m ∈ methods, ∀ s,
      methodOutcome env mo es m ≠ Except.error (PyError.baseExc s)) :
    (estimate_loop env mo es methods).1 =
        Except.ok (methods.map fun m => (m, method_result env mo es m))
      ∧ (∀ m e, methodOutcome env mo es m = Except.error (PyError.exc e) →
          method_result env mo es m = PyFloat.nan)
      ∧ estimateCalls (estimate_loop env mo es methods).2 = methods := by
  have h1 := estimate_loop_ok_of_no_base env mo es methods hno
  refine ⟨h1, fun m e he => method_result_of_error env mo es m _ he, ?_⟩
  obtain ⟨-, htr⟩ := estimate_loop_ok_char env mo es methods _ h1
  rw [htr, estimateCalls_flatMap]

theorem c1_witness :
    (estimate_loop envAllFail () () methods).1 =
        Except.ok (methods.map fun m => (m, method_result envAllFail () () m))
      ∧ (∀ m e,
          methodOutcome envAllFail () () m = Except.error (PyError.exc e) →
          method_result envAllFail () () m = PyFloat.nan)
      ∧ estimateCalls (estimate_loop envAllFail () () methods).2 = methods :=
  c1_per_method_failure_isolated envAllFail () () (by
    intro m hm s h
    have h0 : methodOutcome envAllFail () () m =
        Except.error (PyError.exc "did not converge") := rfl
    rw [h0] at h
    simp at h)

/-- C2: whenever `estimate_effects` returns, the returned mapping's keys are
exactly the four configured method identifiers, in the configured order. -/
theorem c2_result_keys (env : Env DF G Mo Es Ev) (df : DF) (g : G)
    (rs : List (String × PyFloat))
    (h : (estimate_effects env df g).1 = Except.ok rs) :
    rs.map Prod.fst = methods ∧
      methods = ["backdoor.propensity_score_matching",
                 "backdoor.propensity_score_weighting",
                 "backdoor.propensity_score_stratification",
                 "backdoor.linear_regression"] := by
  obtain ⟨mo, es, -, -, hloop, -⟩ := estimate_effects_fst_ok env df g rs h
  exact ⟨(estimate_loop_ok_char env mo es methods rs hloop).1, rfl⟩

theorem c2_witness :
    (methods.map fun m => (m, PyFloat.val (3 / 2))).map Prod.fst = methods ∧
      methods = ["backdoor.propensity_score_matching",
                 "backdoor.propensity_score_weighting",
                 "backdoor.propensity_score_stratification",
                 "backdoor.linear_regression"] :=
  c2_result_keys envAllOK () () (methods.map fun m => (m, PyFloat.val (3 / 2)))
    (by rfl)

/-- C3: `estimate_effects` runs exactly four estimation methods, in the
fixed order matching, weighting, stratification, linear regression; the
event trace is the model construction and identification followed by one
contiguous block per method in that order, so each method's estimation runs
to completion before the next begins. -/
theorem c3_fixed_method_order (env : Env DF G Mo Es Ev) (df : DF) (g : G)
    (rs : List (String × PyFloat))
    (h : (estimate_effects env df g).1 = Except.ok rs) :
    methods.length = 4 ∧
      ∃ mo es,
        (estimate_effects env df g).2 =
            Event.causalModelCall (env.to_pydot_string g) ::
              Event.identifyCall ::
                (methods.flatMap fun m => (run_method env mo es m).2) ∧
          estimateCalls (estimate_effects env df g).2 = methods ∧
          ∀ m, ∀ e ∈ (run_method env mo es m).2, e.methodTag = some m := by
  obtain ⟨mo, es, -, -, hloop, htr⟩ := estimate_effects_fst_ok env df g rs h
  obtain ⟨-, hltr⟩ := estimate_loop_ok_char env mo es methods rs hloop
  have htrace : (estimate_effects env df g).2 =
      Event.causalModelCall (env.to_pydot_string g) ::
        Event.identifyCall ::
          (methods.flatMap fun m => (run_method env mo es m).2) := by
    rw [htr, hltr]
  refine ⟨rfl, mo, es, htrace, ?_, ?_⟩
  · rw [htrace]
    have hskip : estimateCalls
        (Event.causalModelCall (env.to_pydot_string g) ::
          Event.identifyCall ::
            (methods.flatMap fun m => (run_method env mo es m).2)) =
        estimateCalls (methods.flatMap fun m => (run_method env mo es m).2) :=
      rfl
    rw [hskip, estimateCalls_flatMap]
  · intro m e he
    rcases run_method_trace env mo es m with ht | ht <;> rw [ht] at he <;>
      simp only [List.mem_cons, List.not_mem_nil, or_false] at he
    · rw [he]
      rfl
    · rcases he with rfl | rfl <;> rfl

theorem c3_witness :
    methods.length = 4 ∧
      ∃ mo es,
        (estimate_effects envAllOK () ()).2 =
            Event.causalModelCall (envAllOK.to_pydot_string ()) ::
              Event.identifyCall ::
                (methods.flatMap fun m => (run_method envAllOK mo es m).2) ∧
          estimateCalls (estimate_effects envAllOK () ()).2 = methods ∧
          ∀ m, ∀ e ∈ (run_method envAllOK mo es m).2, e.methodTag = some m :=
  c3_fixed_method_order envAllOK () ()
    (methods.map fun m => (m, PyFloat.val (3 / 2))) (by rfl)

/-- C4: any failure raised during data loading (`load_data`) or graph
deserialization (`load_graph`) propagates unmodified out of `main`: the run
result is that same error, no estimation method is attempted and nothing is
printed. -/
theorem c4_fatal_load_failures (env : Env DF G Mo Es Ev) :
    (∀ e, (load_data env).1 = Except.error e →
        (main env).1 = Except.error e ∧
          estimateCalls (main env).2 = [] ∧ printedLines (main env).2 = [])
    ∧ ∀ (df : DF) e, (load_data env).1 = Except.ok df →
        env.pickle_load = Except.error e →
        (main env).1 = Except.error e ∧
          estimateCalls (main env).2 = [] ∧ printedLines (main env).2 = [] := by
  constructor
  · intro e he
    cases hld : load_data env with
    | mk r1 tr1 =>
      have he2 : r1 = Except.error e := by rw [hld] at he; exact he
      subst he2
      have hmain : main env = (Except.error e, tr1) := by
        simp [main, hld]
      have htr : tr1 = [Event.chooseColumnsCall] ∨
          tr1 = [Event.chooseColumnsCall,
                 Event.preprocessCall loadDataCfg] := by
        have h0 := load_data_trace env
        rw [hld] at h0
        exact h0
      rw [hmain]
      rcases htr with h | h <;> rw [h] <;> exact ⟨rfl, rfl, rfl⟩
  · intro df e h1 h2
    cases hld : load_data env with
    | mk r1 tr1 =>
      have h1b : r1 = Except.ok df := by rw [hld] at h1; exact h1
      subst h1b
      have hmain : main env =
          (Except.error e, tr1 ++ [Event.pickleLoadCall]) := by
        simp [main, hld, load_graph, h2]
      have htr : tr1 = [Event.chooseColumnsCall] ∨
          tr1 = [Event.chooseColumnsCall,
                 Event.preprocessCall loadDataCfg] := by
        have h0 := load_data_trace env
        rw [hld] at h0
        exact h0
      rw [hmain]
      rcases htr with h | h <;> rw [h] <;> exact ⟨rfl, rfl, rfl⟩

theorem c4_witness :
    ((main envLoadFails).1 = Except.error (PyError.exc "FileNotFoundError") ∧
        estimateCalls (main envLoadFails).2 = [] ∧
        printedLines (main envLoadFails).2 = [])
    ∧ (main envGraphFails).1 = Except.error (PyError.exc "UnpicklingError") ∧
        estimateCalls (main envGraphFails).2 = [] ∧
        printedLines (main envGraphFails).2 = [] :=
  ⟨(c4_fatal_load_failures envLoadFails).1
      (PyError.exc "FileNotFoundError") rfl,
   (c4_fatal_load_failures envGraphFails).2 ()
      (PyError.exc "UnpicklingError") rfl rfl⟩

/-- C5: the `CausalModel` construction and the `identify_effect` call happen
exactly once, before the per-method loop and outside the per-method
try/except: a failure of either propagates out of `estimate_effects` as the
same error, with no estimation method attempted and hence no nan entry
recorded for any method. -/
theorem c5_model_identify_outside_boundary (env : Env DF G Mo Es Ev)
    (df : DF) (g : G) :
    (∀ e, env.causal_model df TREATMENT OUTCOME (env.to_pydot_string g) =
        Except.error e →
        (estimate_effects env df g).1 = Except.error e ∧
          estimateCalls (estimate_effects env df g).2 = [])
    ∧ (∀ mo e,
        env.causal_model df TREATMENT OUTCOME (env.to_pydot_string g) =
          Except.ok mo →
        env.identify_effect mo = Except.error e →
        (estimate_effects env df g).1 = Except.error e ∧
          estimateCalls (estimate_effects env df g).2 = [])
    ∧ countModelCalls (estimate_effects env df g).2 = 1
    ∧ countIdentifyCalls (estimate_effects env df g).2 ≤ 1 := by
  refine ⟨?_, ?_, countModelCalls_estimate_effects env df g,
    countIdentifyCalls_estimate_effects env df g⟩
  · intro e h1
    have h0 : estimate_effects env df g =
        (Except.error e, [Event.causalModelCall (env.to_pydot_string g)]) := by
      simp [estimate_effects, h1]
    rw [h0]
    exact ⟨rfl, rfl⟩
  · intro mo e h1 h2
    have h0 : estimate_effects env df g =
        (Except.error e,
          [Event.causalModelCall (env.to_pydot_string g),
           Event.identifyCall]) := by
      simp [estimate_effects, h1, h2]
    rw [h0]
    exact ⟨rfl, rfl⟩

theorem c5_witness :
    ((estimate_effects envModelFails () ()).1 =
          Except.error (PyError.exc "ValueError") ∧
        estimateCalls (estimate_effects envModelFails () ()).2 = [])
    ∧ (estimate_effects envIdentFails () ()).1 =
          Except.error (PyError.exc "ValueError") ∧
        estimateCalls (estimate_effects envIdentFails () ()).2 = [] :=
  ⟨(c5_model_identify_outside_boundary envModelFails () ()).1
      (PyError.exc "ValueError") rfl,
   (c5_model_identify_outside_boundary envIdentFails () ()).2.1 ()
      (PyError.exc "ValueError") rfl rfl⟩

/-- C6: `load_data` calls the preprocessor with exactly the options
`na_threshold = 0.5`, `impute_strategy = "drop"`,
`treatment_dichotomize_value = "median"` and `treatment_column` equal to the
treatment variable name `Y11_Q57`. -/
theorem c6_preprocess_configuration (env : Env DF G Mo Es Ev) (df : DF)
    (h : env.choose_columns = Except.ok df) :
    (load_data env).2 =
        [Event.chooseColumnsCall, Event.preprocessCall loadDataCfg]
      ∧ loadDataCfg.na_threshold = 0.5
      ∧ loadDataCfg.impute_strategy = "drop"
      ∧ loadDataCfg.treatment_dichotomize_value = "median"
      ∧ loadDataCfg.treatment_column = TREATMENT
      ∧ TREATMENT = "Y11_Q57" := by
  refine ⟨?_, by norm_num [loadDataCfg], rfl, rfl, rfl, rfl⟩
  cases h2 : env.preprocess_data df loadDataCfg with
  | error e => simp [load_data, h, h2]
  | ok df2 => simp [load_data, h, h2]

theorem c6_witness :
    (load_data envAllOK).2 =
        [Event.chooseColumnsCall, Event.preprocessCall loadDataCfg]
      ∧ loadDataCfg.na_threshold = 0.5
      ∧ loadDataCfg.impute_strategy = "drop"
      ∧ loadDataCfg.treatment_dichotomize_value = "median"
      ∧ loadDataCfg.treatment_column = TREATMENT
      ∧ TREATMENT = "Y11_Q57" :=
  c6_preprocess_configuration envAllOK () rfl

/-- C7: a run of `main` that completes exits with code 0, regardless of how
many of the four estimation methods failed: whenever loading, model
construction and identification succeed and no method raises a
`BaseException` outside `Exception`, the exit code is 0 even if every
method's estimation failed. -/
theorem c7_exit_code_zero (env : Env DF G Mo Es Ev) :
    ((main env).1 = Except.ok () → exit_code env = 0)
    ∧ ∀ (df : DF) (g : G) (mo : Mo) (es : Es),
        (load_data env).1 = Except.ok df →
        env.pickle_load = Except.ok g →
        env.causal_model df TREATMENT OUTCOME (env.to_pydot_string g) =
          Except.ok mo →
        env.identify_effect mo = Except.ok es →
        (∀ m ∈ methods, ∀ s,
          methodOutcome env mo es m ≠ Except.error (PyError.baseExc s)) →
        exit_code env = 0 := by
  constructor
  · intro h
    simp [exit_code, h]
  · intro df g mo es h1 h2 h3 h4 h5
    have hloop := estimate_loop_ok_of_no_base env mo es methods h5
    have hee : (estimate_effects env df g).1 =
        Except.ok (methods.map fun m => (m, method_result env mo es m)) := by
      cases hl : estimate_loop env mo es methods with
      | mk r tr =>
        have hr : r = Except.ok
            (methods.map fun m => (m, method_result env mo es m)) := by
          rw [hl] at hloop
          exact hloop
        subst hr
        simp [estimate_effects, h3, h4, hl]
    cases hld : load_data env with
    | mk r1 tr1 =>
      have h1b : r1 = Except.ok df := by rw [hld] at h1; exact h1
      subst h1b
      cases hef : estimate_effects env df g with
      | mk r3 tr3 =>
        have h3b : r3 = Except.ok
            (methods.map fun m => (m, method_result env mo es m)) := by
          rw [hef] at hee
          exact hee
        subst h3b
        have hmain : (main env).1 = Except.ok () := by
          simp [main, hld, load_graph, h2, hef]
        simp [exit_code, hmain]

theorem c7_witness : exit_code envAllFail = 0 :=
  (c7_exit_code_zero envAllFail).2 () () () () rfl rfl rfl rfl (by
    intro m hm s h
    have h0 : methodOutcome envAllFail () () m =
        Except.error (PyError.exc "did not converge") := rfl
    rw [h0] at h
    simp at h)

/-- C8: when all stages succeed, the report is the header line followed by
one line per method: two spaces, the method name left-aligned in a field of
width 40, a space and the effect value; a numeric value is printed with
exactly four decimal digits after the decimal point, and a failed method
prints the string nan. -/
theorem c8_report_format (env : Env DF G Mo Es Ev) (df : DF) (g : G)
    (rs : List (String × PyFloat))
    (h1 : (load_data env).1 = Except.ok df)
    (h2 : env.pickle_load = Except.ok g)
    (h3 : (estimate_effects env df g).1 = Except.ok rs) :
    printedLines (main env).2 =
        headerLine :: rs.map (fun p => report_line p.1 p.2)
      ∧ (∀ name v,
          report_line name v = "  " ++ padRight name 40 ++ " " ++ pyFormat4 v)
      ∧ pyFormat4 PyFloat.nan = "nan"
      ∧ ∀ q, ∃ a b : String, pyFormat4 (PyFloat.val q) = a ++ "." ++ b ∧
          b.length = 4 ∧ ∀ c ∈ b.data, c.isDigit = true := by
  refine ⟨?_, fun name v => rfl, rfl, format4_decomp⟩
  cases hld : load_data env with
  | mk r1 tr1 =>
    have h1b : r1 = Except.ok df := by rw [hld] at h1; exact h1
    subst h1b
    cases hef : estimate_effects env df g with
    | mk r3 tr3 =>
      have h3b : r3 = Except.ok rs := by rw [hef] at h3; exact h3
      subst h3b
      have hmain : (main env).2 =
          tr1 ++ [Event.pickleLoadCall] ++ tr3 ++
            (Event.printLine headerLine ::
              rs.map fun p => Event.printLine (report_line p.1 p.2)) := by
        simp [main, hld, load_graph, h2, hef]
      rw [hmain]
      rw [printedLines_append, printedLines_append, printedLines_append]
      have e1 : printedLines tr1 = [] := by
        have h0 : tr1 = [Event.chooseColumnsCall] ∨
            tr1 = [Event.chooseColumnsCall,
                   Event.preprocessCall loadDataCfg] := by
          have hh := load_data_trace env
          rw [hld] at hh
          exact hh
        rcases h0 with h | h <;> rw [h] <;> rfl
      have e3 : printedLines tr3 = [] := by
        have h0 := printedLines_estimate_effects env df g
        rw [hef] at h0
        exact h0
      have e4 : printedLines
          (Event.printLine headerLine ::
            rs.map fun p => Event.printLine (report_line p.1 p.2)) =
          headerLine :: rs.map fun p => report_line p.1 p.2 := by
        have hcons : printedLines
            (Event.printLine headerLine ::
              rs.map fun p => Event.printLine (report_line p.1 p.2)) =
            headerLine :: printedLines
              (rs.map fun p => Event.printLine (report_line p.1 p.2)) := rfl
        rw [hcons, printedLines_print_map
          (fun p : String × PyFloat => report_line p.1 p.2) rs]
      rw [e1, e3, e4]
      rfl

theorem c8_witness :
    printedLines (main envOneFails).2 =
        headerLine ::
          ([("backdoor.propensity_score_matching", PyFloat.val (3 / 2)),
            ("backdoor.propensity_score_weighting", PyFloat.nan),
            ("backdoor.propensity_score_stratification", PyFloat.val (3 / 2)),
            ("backdoor.linear_regression", PyFloat.val (3 / 2))].map
            fun p => report_line p.1 p.2)
      ∧ (∀ name v,
          report_line name v = "  " ++ padRight name 40 ++ " " ++ pyFormat4 v)
      ∧ pyFormat4 PyFloat.nan = "nan"
      ∧ ∀ q, ∃ a b : String, pyFormat4 (PyFloat.val q) = a ++ "." ++ b ∧
          b.length = 4 ∧ ∀ c ∈ b.data, c.isDigit = true :=
  c8_report_format envOneFails () ()
    [("backdoor.propensity_score_matching", PyFloat.val (3 / 2)),
     ("backdoor.propensity_score_weighting", PyFloat.nan),
     ("backdoor.propensity_score_stratification", PyFloat.val (3 / 2)),
     ("backdoor.linear_regression", PyFloat.val (3 / 2))]
    rfl rfl (by rfl)

/-- C9: the graph is loaded exactly once in a completed run and is used
read-only: `estimate_effects` depends on the graph only through its pydot
string serialization, so two graphs with the same serialization give
identical results and traces, and a completed `main` records exactly one
`pickle.load` call. -/
theorem c9_graph_read_only (env : Env DF G Mo Es Ev) :
    (∀ (df : DF) (g g2 : G),
        env.to_pydot_string g = env.to_pydot_string g2 →
        estimate_effects env df g = estimate_effects env df g2)
    ∧ ∀ u, (main env).1 = Except.ok u →
        countPickleLoads (main env).2 = 1 := by
  constructor
  · intro df g g2 hsame
    unfold estimate_effects
    rw [hsame]
  · intro u hok
    cases hld : load_data env with
    | mk r1 tr1 =>
      cases r1 with
      | error e =>
        have h0 : (main env).1 = Except.error e := by simp [main, hld]
        rw [h0] at hok
        exact absurd hok (by simp)
      | ok df =>
        cases hpl : env.pickle_load with
        | error e =>
          have h0 : (main env).1 = Except.error e := by
            simp [main, hld, load_graph, hpl]
          rw [h0] at hok
          exact absurd hok (by simp)
        | ok g =>
          cases hef : estimate_effects env df g with
          | mk r3 tr3 =>
            cases r3 with
            | error e =>
              have h0 : (main env).1 = Except.error e := by
                simp [main, hld, load_graph, hpl, hef]
              rw [h0] at hok
              exact absurd hok (by simp)
            | ok rs =>
              have hmain : (main env).2 =
                  tr1 ++ [Event.pickleLoadCall] ++ tr3 ++
                    (Event.printLine headerLine ::
                      rs.map fun p =>
                        Event.printLine (report_line p.1 p.2)) := by
                simp [main, hld, load_graph, hpl, hef]
              rw [hmain]
              rw [countPickleLoads_append, countPickleLoads_append,
                countPickleLoads_append]
              have e1 : countPickleLoads tr1 = 0 := by
                have h0 : tr1 = [Event.chooseColumnsCall] ∨
                    tr1 = [Event.chooseColumnsCall,
                           Event.preprocessCall loadDataCfg] := by
                  have hh := load_data_trace env
                  rw [hld] at hh
                  exact hh
                rcases h0 with h | h <;> rw [h] <;> rfl
              have e3 : countPickleLoads tr3 = 0 := by
                have h0 := countPickleLoads_estimate_effects env df g
                rw [hef] at h0
                exact h0
              have e4 : countPickleLoads
                  (Event.printLine headerLine ::
                    rs.map fun p =>
                      Event.printLine (report_line p.1 p.2)) = 0 := by
                have hcons : countPickleLoads
                    (Event.printLine headerLine ::
                      rs.map fun p =>
                        Event.printLine (report_line p.1 p.2)) =
                    countPickleLoads
                      (rs.map fun p =>
                        Event.printLine (report_line p.1 p.2)) := rfl
                rw [hcons, countPickleLoads_print_map
                  (fun p : String × PyFloat => report_line p.1 p.2) rs]
              rw [e1, e3, e4]
              rfl

theorem c9_witness :
    estimate_effects envAllOK () () = estimate_effects envAllOK () () ∧
      countPickleLoads (main envAllOK).2 = 1 :=
  ⟨(c9_graph_read_only envAllOK).1 () () () rfl,
   (c9_graph_read_only envAllOK).2 () rfl⟩

/-- C10: the per-method boundary catches only `Exception`: if a method
raises a `BaseException` that is not an `Exception`, it escapes the
boundary, `estimate_effects` returns that error instead of a result
mapping, and the methods after it are never attempted. -/
theorem c10_base_exception_escapes (env : Env DF G Mo Es Ev) (df : DF)
    (g : G) (mo : Mo) (es : Es) (ms1 : List String) (m : String)
    (ms2 : List String) (s : String)
    (hm : methods = ms1 ++ m :: ms2)
    (h1 : env.causal_model df TREATMENT OUTCOME (env.to_pydot_string g) =
      Except.ok mo)
    (h2 : env.identify_effect mo = Except.ok es)
    (h3 : ∀ m2 ∈ ms1, ∀ t,
      methodOutcome env mo es m2 ≠ Except.error (PyError.baseExc t))
    (h4 : methodOutcome env mo es m = Except.error (PyError.baseExc s)) :
    (estimate_effects env df g).1 = Except.error (PyError.baseExc s)
      ∧ estimateCalls (estimate_effects env df g).2 = ms1 ++ [m] := by
  have hloop := estimate_loop_baseExc env mo es ms1 m ms2 s h3 h4
  have hsh : estimate_effects env df g =
      (Except.error (PyError.baseExc s),
        Event.causalModelCall (env.to_pydot_string g) ::
          Event.identifyCall ::
            ((ms1.flatMap fun m2 => (run_method env mo es m2).2) ++
              (run_method env mo es m).2)) := by
    simp [estimate_effects, h1, h2, hm, hloop]
  constructor
  · rw [hsh]
  · have htr2 : (estimate_effects env df g).2 =
        Event.causalModelCall (env.to_pydot_string g) ::
          Event.identifyCall ::
            ((ms1.flatMap fun m2 => (run_method env mo es m2).2) ++
              (run_method env mo es m).2) := by
      rw [hsh]
    rw [htr2]
    have hskip : estimateCalls
        (Event.causalModelCall (env.to_pydot_string g) ::
          Event.identifyCall ::
            ((ms1.flatMap fun m2 => (run_method env mo es m2).2) ++
              (run_method env mo es m).2)) =
        estimateCalls
          ((ms1.flatMap fun m2 => (run_method env mo es m2).2) ++
            (run_method env mo es m).2) := rfl
    rw [hskip, estimateCalls_append, estimateCalls_flatMap,
      estimateCalls_run_method]

theorem c10_witness :
    (estimate_effects envBaseFails () ()).1 =
        Except.error (PyError.baseExc "KeyboardInterrupt")
      ∧ estimateCalls (estimate_effects envBaseFails () ()).2 =
        ["backdoor.propensity_score_matching",
         "backdoor.propensity_score_weighting"] :=
  c10_base_exception_escapes envBaseFails () () () ()
    ["backdoor.propensity_score_matching"]
    "backdoor.propensity_score_weighting"
    ["backdoor.propensity_score_stratification",
     "backdoor.linear_regression"]
    "KeyboardInterrupt" rfl rfl rfl
    (by
      intro m2 hm2 t h
      have hm2b : m2 = "backdoor.propensity_score_matching" := by
        simpa using hm2
      subst hm2b
      have h0 : methodOutcome envBaseFails () ()
          "backdoor.propensity_score_matching" =
          Except.ok (PyFloat.val (3 / 2)) := rfl
      rw [h0] at h
      exact Except.noConfusion h)
    (by rfl)

end Estimations
